import Mathlib

/-!
Shallow embedding of the timetable core of `TitoKamau053/university-timetable`
(`src/services/scheduler.py`, data model from `src/models/database_models.py`).

The external relational store is modelled as an in-memory `DBState` holding the
entity collections; SQLAlchemy queries become list lookups (`.first()` is
`List.find?`), `db.add_all` / `db.commit` become a functional state update, and
Python's ambient `random.choice` becomes an injected stream `rng : Nat → Nat`
consumed one value per choice (index modulo the list length, as a uniform pick).
`print` diagnostics carry no data flow and are not modelled.
-/

namespace Timetable

/-- A clock time, as Python's `datetime.time(hour, minute)`. -/
structure Time where
  hour : Nat
  minute : Nat
deriving DecidableEq, Repr

/-- Model of `models.database_models.School`. -/
structure School where
  id : Nat
  name : String
  code : String
deriving DecidableEq, Repr

/-- Model of `models.database_models.Department`. -/
structure Department where
  id : Nat
  name : String
  code : String
  school_id : Nat
deriving DecidableEq, Repr

/-- Model of `models.database_models.Room`. -/
structure Room where
  id : Nat
  name : String
  capacity : Nat
  room_type : String
deriving DecidableEq, Repr

/-- Model of `models.database_models.Lecturer`. -/
structure Lecturer where
  id : Nat
  name : String
  employee_id : String
  employment_type : String
  max_units : Nat
deriving DecidableEq, Repr

/-- Model of `models.database_models.Unit` (an academic course offering). -/
structure Unit where
  id : Nat
  name : String
  code : String
  department_id : Nat
  year_level : Nat
  semester : Nat
  requires_lab : Bool
  lecturer_id : Nat
deriving DecidableEq, Repr

/-- Model of `models.database_models.StudentGroup`. -/
structure StudentGroup where
  id : Nat
  department_id : Nat
  year_level : Nat
  group_size : Nat
deriving DecidableEq, Repr

/-- Model of `models.database_models.TimeSlot`.  The `id` of a freshly generated slot is
`0` until the store assigns a primary key on persistence. -/
structure TimeSlot where
  id : Nat
  day_of_week : Nat
  start_time : Time
  end_time : Time
  session_type : String
deriving DecidableEq, Repr

/-- Model of `models.database_models.TimetableEntry`. -/
structure TimetableEntry where
  unit_id : Nat
  lecturer_id : Nat
  room_id : Nat
  time_slot_id : Nat
  student_group_id : Nat
  week_type : String
deriving DecidableEq, Repr

/-- Model of `models.pydantic_models.ValidationResult`. -/
structure ValidationResult where
  is_valid : Bool
  conflicts : List String
  warnings : List String
deriving DecidableEq, Repr

/-- The external store's state: the entity collections the scheduler queries
and writes.  SQLAlchemy's session over the relational schema, restricted to the
tables the core touches. -/
structure DBState where
  schools : List School
  departments : List Department
  rooms : List Room
  lecturers : List Lecturer
  units : List Unit
  student_groups : List StudentGroup
  time_slots : List TimeSlot
  timetable_entries : List TimetableEntry
deriving DecidableEq, Repr

/-- The SPAS 3-hour session table of `generate_time_slots`
(`scheduler.py:29-34`). -/
def spas_sessions : List (Time × Time) :=
  [(⟨7, 0⟩, ⟨10, 0⟩),
   (⟨10, 30⟩, ⟨13, 30⟩),
   (⟨14, 0⟩, ⟨17, 0⟩),
   (⟨16, 0⟩, ⟨19, 0⟩)]

/-- The SHS 2-hour session table of `generate_time_slots`
(`scheduler.py:37-44`). -/
def shs_sessions : List (Time × Time) :=
  [(⟨7, 0⟩, ⟨9, 0⟩),
   (⟨9, 0⟩, ⟨11, 0⟩),
   (⟨11, 0⟩, ⟨13, 0⟩),
   (⟨14, 0⟩, ⟨16, 0⟩),
   (⟨16, 0⟩, ⟨18, 0⟩),
   (⟨17, 0⟩, ⟨19, 0⟩)]

/-- The slot catalog built by `generate_time_slots` (`scheduler.py:26-63`):
for each day 1..5, one slot per SPAS session then one per SHS session. -/
def time_slot_catalog : List TimeSlot :=
  (List.range' 1 5).flatMap (fun day =>
    spas_sessions.map (fun se =>
      { id := 0, day_of_week := day, start_time := se.1, end_time := se.2,
        session_type := "spas_3h" })
    ++ shs_sessions.map (fun se =>
      { id := 0, day_of_week := day, start_time := se.1, end_time := se.2,
        session_type := "shs_2h" }))

/-- Embedding of `TimetableScheduler.generate_time_slots` (`scheduler.py:24-68`): builds the
catalog, then saves it to the database (`db.add_all` + `db.commit`,
`scheduler.py:66-67`) and returns it. -/
def generate_time_slots (db : DBState) : List TimeSlot × DBState :=
  let time_slots := time_slot_catalog
  (time_slots, { db with time_slots := db.time_slots ++ time_slots })

/-! ## Constraint validator (`validate_constraints`, `scheduler.py:70-116`) -/

/-- The time-slot ids of an entry list in order of first occurrence: the key
order of the insertion-ordered `slot_bookings` defaultdict
(`scheduler.py:76-83`). -/
def slot_booking_keys (entries : List TimetableEntry) : List Nat :=
  entries.foldl
    (fun acc e => if e.time_slot_id ∈ acc then acc else acc ++ [e.time_slot_id]) []

/-- One bucket of `slot_bookings`: the entries referencing a given time slot,
in list order. -/
def slot_bookings (entries : List TimetableEntry) (slot_id : Nat) :
    List TimetableEntry :=
  entries.filter (fun e => e.time_slot_id == slot_id)

/-- Conflict message of `scheduler.py:95`. -/
def lecturer_conflict_msg (slot_id : Nat) : String :=
  s!"Lecturer double-booked in time slot {slot_id}"

/-- Conflict message of `scheduler.py:98`. -/
def room_conflict_msg (slot_id : Nat) : String :=
  s!"Room double-booked in time slot {slot_id}"

/-- Conflict message of `scheduler.py:101`. -/
def student_conflict_msg (slot_id : Nat) : String :=
  s!"Student group double-booked in time slot {slot_id}"

/-- Conflict message of `scheduler.py:110`. -/
def lab_conflict_msg (code name : String) : String :=
  s!"Lab unit {code} assigned to non-lab room {name}"

/-- The double-booking conflicts of one slot bucket (`scheduler.py:89-101`).
Python's duplicate test `len(set(xs)) != len(xs)` is `¬ xs.Nodup`. -/
def slot_conflicts (entries : List TimetableEntry) (slot_id : Nat) : List String :=
  let lecturers := entries.map (·.lecturer_id)
  let rooms := entries.map (·.room_id)
  let students := entries.map (·.student_group_id)
  (if lecturers.Nodup then [] else [lecturer_conflict_msg slot_id])
    ++ (if rooms.Nodup then [] else [room_conflict_msg slot_id])
    ++ (if students.Nodup then [] else [student_conflict_msg slot_id])

/-- The lab-requirement check for one entry (`scheduler.py:104-110`): the
entry's unit and room are looked up in the store (`.query(...).first()`);
when either reference dangles the check is skipped (`if unit and room`). -/
def lab_check (db : DBState) (e : TimetableEntry) : List String :=
  match db.units.find? (fun u => u.id == e.unit_id),
        db.rooms.find? (fun r => r.id == e.room_id) with
  | some u, some r =>
    if u.requires_lab && r.room_type != "lab" then [lab_conflict_msg u.code r.name]
    else []
  | _, _ => []

/-- The lab-requirement conflicts of all entries (`scheduler.py:103-110`). -/
def lab_conflicts (db : DBState) (entries : List TimetableEntry) : List String :=
  entries.flatMap (lab_check db)

/-- Embedding of `TimetableScheduler.validate_constraints` (`scheduler.py:70-116`). -/
def validate_constraints (db : DBState) (timetable_entries : List TimetableEntry) :
    ValidationResult :=
  let conflicts :=
    (slot_booking_keys timetable_entries).flatMap
      (fun slot_id => slot_conflicts (slot_bookings timetable_entries slot_id) slot_id)
    ++ lab_conflicts db timetable_entries
  { is_valid := conflicts.length == 0, conflicts := conflicts, warnings := [] }

/-! ## Schedule generator (`generate_schedule`, `scheduler.py:118-256`) -/

/-- The occupancy key `(day_of_week, start_time)` of a slot (`scheduler.py:209`). -/
def slot_key (ts : TimeSlot) : Nat × Time := (ts.day_of_week, ts.start_time)

/-- One occupancy index (`defaultdict(set)` keyed by resource id,
`scheduler.py:148-150`), as a function from ids to slot-key lists. -/
abbrev Schedule := Nat → List (Nat × Time)

/-- The empty occupancy index. -/
def Schedule.empty : Schedule := fun _ => []

/-- Mark a slot key occupied for one resource id (`.add`, `scheduler.py:228-230`). -/
def Schedule.insert (s : Schedule) (id : Nat) (key : Nat × Time) : Schedule :=
  fun i => if i = id then key :: s i else s i

/-- Placeholder used by `choice` for the empty-list case Python would raise on. -/
def default_slot : TimeSlot := ⟨0, 0, ⟨0, 0⟩, ⟨0, 0⟩, ""⟩

/-- Placeholder used by `choice` for the empty-list case Python would raise on. -/
def default_room : Room := ⟨0, "", 0, ""⟩

/-- Embedding of `random.choice` (`scheduler.py:205-206`) driven by the injected stream: the
value `n` picks an index modulo the list length.  The default is only reached
on an empty list, where Python's `random.choice` raises; both call sites run
after nonemptiness checks (`scheduler.py:187-197`). -/
def choice (l : List α) (d : α) (n : Nat) : α := l.getD (n % l.length) d

/-- The bounded random placement loop for one unit (`scheduler.py:199-244`).
The first `Nat` argument is the next index into the random stream, the second
the remaining attempt budget (`max_attempts - attempts`).  Returns the chosen
`(slot, room)` pair if a conflict-free one was found, the number of attempts
consumed, and the next stream index. -/
def placement_trials (rng : Nat → Nat) (available_slots : List TimeSlot)
    (suitable_rooms : List Room)
    (lecturer_schedule room_schedule student_schedule : Schedule)
    (lecturer_id group_id : Nat) :
    Nat → Nat → Option (TimeSlot × Room) × Nat × Nat
  | k, 0 => (none, 0, k)
  | k, fuel + 1 =>
    let slot := choice available_slots default_slot (rng k)
    let room := choice suitable_rooms default_room (rng (k + 1))
    let key := slot_key slot
    let lecturer_conflict := key ∈ lecturer_schedule lecturer_id
    let room_conflict := key ∈ room_schedule room.id
    let student_conflict := key ∈ student_schedule group_id
    if ¬ (lecturer_conflict ∨ room_conflict ∨ student_conflict) then
      (some (slot, room), 1, k + 2)
    else
      let r := placement_trials rng available_slots suitable_rooms
        lecturer_schedule room_schedule student_schedule lecturer_id group_id
        (k + 2) fuel
      (r.1, r.2.1 + 1, r.2.2)

/-- The mutable state of one generation run: the three occupancy indexes and
the accumulated entries (`scheduler.py:148-152`), plus the next random-stream
index. -/
structure GenState where
  lecturer_schedule : Schedule
  room_schedule : Schedule
  student_schedule : Schedule
  timetable_entries : List TimetableEntry
  k : Nat

/-- The initial generation state. -/
def GenState.init : GenState :=
  { lecturer_schedule := Schedule.empty, room_schedule := Schedule.empty,
    student_schedule := Schedule.empty, timetable_entries := [], k := 0 }

/-- The room/slot filtering and bounded-random placement for one unit
(`scheduler.py:179-247`), given its resolved student group and session type:
filter the rooms by lab requirement and the slots by session type, skip the
unit if either set is empty, otherwise run the attempt loop and commit the
first conflict-free pick into the entry list and the three occupancy
indexes. -/
def place_unit (db : DBState) (rng : Nat → Nat) (st : GenState) (u : Unit)
    (student_group : StudentGroup) (session_type : String) : GenState :=
  let suitable_rooms :=
    if u.requires_lab then db.rooms.filter (fun r => r.room_type == "lab")
    else db.rooms.filter (fun r => r.room_type == "normal")
  if suitable_rooms.isEmpty then st
  else
    let available_slots :=
      db.time_slots.filter (fun ts => ts.session_type == session_type)
    if available_slots.isEmpty then st
    else
      let max_attempts := min 100 (available_slots.length * suitable_rooms.length)
      match placement_trials rng available_slots suitable_rooms
          st.lecturer_schedule st.room_schedule st.student_schedule
          u.lecturer_id student_group.id st.k max_attempts with
      | (none, _, k) => { st with k := k }
      | (some (slot, room), _, k) =>
        let entry : TimetableEntry :=
          { unit_id := u.id, lecturer_id := u.lecturer_id, room_id := room.id,
            time_slot_id := slot.id, student_group_id := student_group.id,
            week_type := "all" }
        { lecturer_schedule :=
            st.lecturer_schedule.insert u.lecturer_id (slot_key slot),
          room_schedule := st.room_schedule.insert room.id (slot_key slot),
          student_schedule :=
            st.student_schedule.insert student_group.id (slot_key slot),
          timetable_entries := st.timetable_entries ++ [entry],
          k := k }

/-- The body of the per-unit loop of `generate_schedule` (`scheduler.py:159-247`):
resolve the student group (skip the unit if none), the department and its
school (session type `"spas_3h"` for school code `"SPAS"`, else `"shs_2h"`),
then place the unit.  `Except.error` models the `AttributeError` Python raises
when the unit's department does not resolve (`dept.school_id` on `None`,
`scheduler.py:174`) or the department's school does not resolve (`school.code`
on `None`, `scheduler.py:176`). -/
def schedule_unit (db : DBState) (rng : Nat → Nat) (st : GenState) (u : Unit) :
    Except String GenState :=
  match db.student_groups.find? (fun g =>
      g.department_id == u.department_id && g.year_level == u.year_level) with
  | none => .ok st
  | some student_group =>
    match db.departments.find? (fun d => d.id == u.department_id) with
    | none => .error "AttributeError: NoneType has no attribute school_id"
    | some dept =>
      match db.schools.find? (fun s => s.id == dept.school_id) with
      | none => .error "AttributeError: NoneType has no attribute code"
      | some school =>
        .ok (place_unit db rng st u student_group
          (if school.code == "SPAS" then "spas_3h" else "shs_2h"))

/-- The priority ordering of `scheduler.py:155`: lab-requiring units first,
then ascending year level (Python's stable `sorted` on the key
`(not requires_lab, year_level)`). -/
def unit_priority_le (u v : Unit) : Bool :=
  let a := if u.requires_lab then 0 else 1
  let b := if v.requires_lab then 0 else 1
  a < b || (a == b && u.year_level ≤ v.year_level)

/-- Stable insertion into a sorted list: an element is placed before the first
element it compares `le` to, so earlier elements win ties. -/
def insert_sorted (le : α → α → Bool) (x : α) : List α → List α
  | [] => [x]
  | y :: ys => if le x y then x :: y :: ys else y :: insert_sorted le x ys

/-- Stable sort by a boolean total preorder; all stable sorts agree on such a
preorder, so this models Python's stable `sorted`. -/
def sort_by (le : α → α → Bool) : List α → List α
  | [] => []
  | x :: xs => insert_sorted le x (sort_by le xs)

/-- Embedding of `sorted(units, key=lambda u: (not u.requires_lab, u.year_level))`
(`scheduler.py:155`). -/
def sorted_units (units : List Unit) : List Unit :=
  sort_by unit_priority_le units

/-- The unit-by-unit loop of `scheduler.py:159-247`, threading the generation
state through `schedule_unit` and stopping at the first uncaught error. -/
def run_units (db : DBState) (rng : Nat → Nat) : GenState → List Unit →
    Except String GenState
  | st, [] => .ok st
  | st, u :: us =>
    match schedule_unit db rng st u with
    | .error e => .error e
    | .ok st' => run_units db rng st' us

/-- Embedding of `TimetableScheduler.generate_schedule` (`scheduler.py:118-256`): early exit
on an empty units / time-slots / rooms collection (`scheduler.py:130-140`),
then per-unit placement in priority order, then the final `add_all`/`commit`
(`scheduler.py:252-253`).  Returns the entry list together with the store
state after the commit.  (The `lecturer_units` map of `scheduler.py:143-145`
is built by the source but never read, and is not modelled.) -/
def generate_schedule (db : DBState) (rng : Nat → Nat) :
    Except String (List TimetableEntry × DBState) :=
  if db.units.isEmpty then .ok ([], db)
  else if db.time_slots.isEmpty then .ok ([], db)
  else if db.rooms.isEmpty then .ok ([], db)
  else
    (run_units db rng GenState.init (sorted_units db.units)).map
      (fun st =>
        (st.timetable_entries,
         { db with timetable_entries := db.timetable_entries ++ st.timetable_entries }))

/-- Projection of `generate_schedule` to the returned entry list. -/
def generate_schedule_entries (db : DBState) (rng : Nat → Nat) :
    Except String (List TimetableEntry) :=
  (generate_schedule db rng).map Prod.fst

/-! ## Specification predicates -/

/-- Well-formed store: primary keys are unique in each table the scheduler
resolves ids against. -/
def WF (db : DBState) : Prop :=
  (db.units.map (·.id)).Nodup ∧ (db.rooms.map (·.id)).Nodup ∧
    (db.time_slots.map (·.id)).Nodup ∧ (db.departments.map (·.id)).Nodup

/-- Two entries do not clash on a shared time slot: if they reference the same
slot id, their lecturers, rooms and student groups all differ. -/
def NoSlotClash (e1 e2 : TimetableEntry) : Prop :=
  e1.time_slot_id = e2.time_slot_id →
    e1.lecturer_id ≠ e2.lecturer_id ∧ e1.room_id ≠ e2.room_id ∧
      e1.student_group_id ≠ e2.student_group_id

/-- Two entries do not share an occupancy booking: whenever their slot ids
resolve to store slots with equal `(day, start_time)` keys, their lecturers,
rooms and student groups all differ. -/
def KeySep (db : DBState) (e1 e2 : TimetableEntry) : Prop :=
  ∀ s1 ∈ db.time_slots, ∀ s2 ∈ db.time_slots,
    e1.time_slot_id = s1.id → e2.time_slot_id = s2.id → slot_key s1 = slot_key s2 →
      e1.lecturer_id ≠ e2.lecturer_id ∧ e1.room_id ≠ e2.room_id ∧
        e1.student_group_id ≠ e2.student_group_id

/-- The references of a generated entry resolve in the store, the lecturer is
the unit's lecturer, and the room's type matches the unit's lab requirement. -/
def EntryRefs (db : DBState) (e : TimetableEntry) : Prop :=
  (∃ s ∈ db.time_slots, e.time_slot_id = s.id) ∧
    ∃ u ∈ db.units, e.unit_id = u.id ∧ e.lecturer_id = u.lecturer_id ∧
      ∃ r ∈ db.rooms, e.room_id = r.id ∧
        (u.requires_lab = true → r.room_type = "lab") ∧
        (u.requires_lab = false → r.room_type = "normal")

/-- An entry's slot booking is recorded in all three occupancy indexes of the
generation state. -/
def EntrySched (db : DBState) (st : GenState) (e : TimetableEntry) : Prop :=
  ∃ s ∈ db.time_slots, e.time_slot_id = s.id ∧
    slot_key s ∈ st.lecturer_schedule e.lecturer_id ∧
    slot_key s ∈ st.room_schedule e.room_id ∧
    slot_key s ∈ st.student_schedule e.student_group_id

/-- The loop invariant of one generation run: every accumulated entry is
booked in the occupancy indexes with resolvable references, and no two
accumulated entries share an occupancy booking. -/
def GenInv (db : DBState) (st : GenState) : Prop :=
  (∀ e ∈ st.timetable_entries, EntrySched db st e ∧ EntryRefs db e) ∧
    st.timetable_entries.Pairwise (KeySep db)

/-- A unit's department id resolves to a department whose school id resolves
to a school, so that `scheduler.py:173-176` does not raise. -/
def resolves_school (db : DBState) (u : Unit) : Bool :=
  match db.departments.find? (fun d => d.id == u.department_id) with
  | none => false
  | some dept => (db.schools.find? (fun s => s.id == dept.school_id)).isSome

/-- Whether `pat` begins the character list `s`. -/
def leads (pat s : List Char) : Bool :=
  match pat, s with
  | [], _ => true
  | _ :: _, [] => false
  | p :: ps, c :: cs => p == c && leads ps cs

/-- Whether `pat` occurs contiguously somewhere in `s`. -/
def occurs (pat s : List Char) : Bool :=
  match s with
  | [] => leads pat []
  | _ :: cs => leads pat s || occurs pat cs

/-- Whether the text `token` occurs inside the message `msg`. -/
def mentions (msg token : String) : Bool :=
  occurs token.data msg.data

/-- Decidability of store well-formedness, for concrete stores. -/
instance decWF (db : DBState) : Decidable (WF db) := by
  unfold WF
  infer_instance

/-- Decidability of the no-clash relation, for concrete entries. -/
instance decNoSlotClash (e1 e2 : TimetableEntry) : Decidable (NoSlotClash e1 e2) := by
  unfold NoSlotClash
  infer_instance

/-! ## Concrete stores and inputs used as witnesses and counterexamples -/

/-- The constant random stream. -/
def zero_rng : Nat → Nat := fun _ => 0

/-- The empty store. -/
def empty_db : DBState :=
  { schools := [], departments := [], rooms := [], lecturers := [], units := [],
    student_groups := [], time_slots := [], timetable_entries := [] }

/-- Demonstration store: one SPAS lab unit with a matching student group, a
normal and a lab room, and one slot of each session profile. -/
def demo_db : DBState :=
  { schools := [⟨1, "Science", "SPAS"⟩],
    departments := [⟨1, "Computing", "CS", 1⟩],
    rooms := [⟨1, "R1", 30, "normal"⟩, ⟨2, "L1", 30, "lab"⟩],
    lecturers := [⟨1, "Ada", "E1", "full_time", 4⟩],
    units := [⟨1, "Algorithms", "CS101", 1, 1, 1, true, 1⟩],
    student_groups := [⟨1, 1, 1, 25⟩],
    time_slots := [⟨1, 1, ⟨7, 0⟩, ⟨10, 0⟩, "spas_3h"⟩, ⟨2, 1, ⟨7, 0⟩, ⟨9, 0⟩, "shs_2h"⟩],
    timetable_entries := [] }

/-- Store whose single unit has a matching student group but a department id
that resolves to no department row. -/
def dangling_dept_db : DBState :=
  { schools := [], departments := [],
    rooms := [⟨1, "R1", 30, "normal"⟩],
    lecturers := [⟨1, "Ada", "E1", "full_time", 4⟩],
    units := [⟨1, "Algorithms", "CS101", 7, 1, 1, false, 1⟩],
    student_groups := [⟨1, 7, 1, 25⟩],
    time_slots := [⟨1, 1, ⟨7, 0⟩, ⟨9, 0⟩, "shs_2h"⟩],
    timetable_entries := [] }

/-- A time slot used by the bounded-attempts scenario. -/
def slot_a : TimeSlot := ⟨1, 1, ⟨7, 0⟩, ⟨9, 0⟩, "shs_2h"⟩

/-- A room used by the bounded-attempts scenario. -/
def room_a : Room := ⟨1, "R1", 30, "normal"⟩

/-- A lecturer occupancy index in which lecturer 1 already occupies the key of
`slot_a`. -/
def occupied_l : Schedule := fun i => if i = 1 then [(1, ⟨7, 0⟩)] else []

/-- First entry of the duplicated-lecturer scenario: lecturer 5 in slot 3. -/
def dup_e1 : TimetableEntry := ⟨1, 5, 1, 3, 1, "all"⟩

/-- Second entry of the duplicated-lecturer scenario: lecturer 5 in slot 3
again, in a different room for a different group. -/
def dup_e2 : TimetableEntry := ⟨2, 5, 2, 3, 2, "all"⟩

/-! ## Helper lemmas -/

theorem mem_insert_sorted {le : α → α → Bool} {x y : α} {l : List α} :
    y ∈ insert_sorted le x l ↔ y = x ∨ y ∈ l := by
  induction l with
  | nil => simp [insert_sorted]
  | cons a t ih =>
    by_cases h : le x a = true
    · simp [insert_sorted, h]
    · simp only [insert_sorted, h]
      simp [ih]
      tauto

theorem mem_sort_by {le : α → α → Bool} {y : α} {l : List α} :
    y ∈ sort_by le l ↔ y ∈ l := by
  induction l with
  | nil => simp [sort_by]
  | cons a t ih => simp [sort_by, mem_insert_sorted, ih]

theorem mem_sorted_units {u : Unit} {units : List Unit} :
    u ∈ sorted_units units ↔ u ∈ units := by
  simp [sorted_units, mem_sort_by]

theorem choice_mem {l : List α} (d : α) (n : Nat) (h : l ≠ []) : choice l d n ∈ l := by
  have hl : 0 < l.length := List.length_pos.mpr h
  have hn : n % l.length < l.length := Nat.mod_lt _ hl
  rw [choice, List.getD_eq_getElem?_getD, List.getElem?_eq_getElem hn]
  exact List.getElem_mem hn

theorem find_key_eq_some {α : Type} (f : α → Nat) :
    ∀ {l : List α}, (l.map f).Nodup → ∀ {x}, x ∈ l →
      l.find? (fun y => f y == f x) = some x := by
  intro l
  induction l with
  | nil => intro _ x hx; cases hx
  | cons a t ih =>
    intro hnd x hx
    rw [List.map_cons, List.nodup_cons] at hnd
    rcases List.mem_cons.mp hx with rfl | hx
    · simp [List.find?_cons]
    · have hne : (f a == f x) = false := by
        refine beq_eq_false_iff_ne.mpr fun hEq => hnd.1 ?_
        rw [hEq]
        exact List.mem_map_of_mem f hx
      rw [List.find?_cons, hne]
      exact ih hnd.2 hx

theorem Schedule.mem_insert_self (s : Schedule) (i : Nat) (key : Nat × Time) :
    key ∈ s.insert i key i := by
  simp [Schedule.insert]

theorem Schedule.mem_insert_of_mem (s : Schedule) {i j : Nat} {k key : Nat × Time}
    (h : k ∈ s i) : k ∈ s.insert j key i := by
  by_cases hi : i = j
  · subst hi; simp [Schedule.insert, h]
  · simp [Schedule.insert, hi, h]

theorem placement_trials_attempts_le (rng : Nat → Nat) (slots : List TimeSlot)
    (rooms : List Room) (L R G : Schedule) (lect grp : Nat) :
    ∀ fuel k, (placement_trials rng slots rooms L R G lect grp k fuel).2.1 ≤ fuel := by
  intro fuel
  induction fuel with
  | zero => intro k; simp [placement_trials]
  | succ n ih =>
    intro k
    rw [placement_trials]
    split
    · simp
    · simpa using Nat.succ_le_succ (ih (k + 2))

theorem placement_trials_some (rng : Nat → Nat) {slots : List TimeSlot}
    {rooms : List Room} (L R G : Schedule) (lect grp : Nat)
    (hs : slots ≠ []) (hr : rooms ≠ []) :
    ∀ {fuel k slot room a k'},
      placement_trials rng slots rooms L R G lect grp k fuel = (some (slot, room), a, k') →
      slot ∈ slots ∧ room ∈ rooms ∧ slot_key slot ∉ L lect ∧
        slot_key slot ∉ R room.id ∧ slot_key slot ∉ G grp := by
  intro fuel
  induction fuel with
  | zero => intro k slot room a k' h; simp [placement_trials] at h
  | succ n ih =>
    intro k slot room a k' h
    rw [placement_trials] at h
    split at h
    · rename_i hcond
      simp only [Prod.mk.injEq] at h
      obtain ⟨h1, -, -⟩ := h
      obtain ⟨rfl, rfl⟩ : choice slots default_slot (rng k) = slot ∧
          choice rooms default_room (rng (k + 1)) = room := by
        simpa using h1
      push_neg at hcond
      exact ⟨choice_mem _ _ hs, choice_mem _ _ hr, hcond.1, hcond.2.1, hcond.2.2⟩
    · rcases hrec : placement_trials rng slots rooms L R G lect grp (k + 2) n
        with ⟨res, att, knext⟩
      rw [hrec] at h
      simp only [Prod.mk.injEq] at h
      obtain ⟨h1, -, h3⟩ := h
      exact ih (by rw [hrec, h1, h3])

theorem commit_inv (db : DBState) (st : GenState) (u : Unit)
    (student_group : StudentGroup) (slot : TimeSlot) (room : Room) (kk : Nat)
    (hwf : WF db) (hu : u ∈ db.units) (hinv : GenInv db st)
    (hslot_db : slot ∈ db.time_slots) (hroom_db : room ∈ db.rooms)
    (hlab : u.requires_lab = true → room.room_type = "lab")
    (hnormal : u.requires_lab = false → room.room_type = "normal")
    (hnl : slot_key slot ∉ st.lecturer_schedule u.lecturer_id)
    (hnr : slot_key slot ∉ st.room_schedule room.id)
    (hng : slot_key slot ∉ st.student_schedule student_group.id) :
    GenInv db
      { lecturer_schedule := st.lecturer_schedule.insert u.lecturer_id (slot_key slot),
        room_schedule := st.room_schedule.insert room.id (slot_key slot),
        student_schedule := st.student_schedule.insert student_group.id (slot_key slot),
        timetable_entries := st.timetable_entries ++
          [⟨u.id, u.lecturer_id, room.id, slot.id, student_group.id, "all"⟩],
        k := kk } := by
  constructor
  · intro e he
    rcases List.mem_append.mp he with he | he
    · obtain ⟨hes, herefs⟩ := hinv.1 e he
      refine ⟨?_, herefs⟩
      obtain ⟨s, hsdb, hsid, hl, hr2, hg⟩ := hes
      exact ⟨s, hsdb, hsid, Schedule.mem_insert_of_mem _ hl,
        Schedule.mem_insert_of_mem _ hr2, Schedule.mem_insert_of_mem _ hg⟩
    · rcases List.mem_singleton.mp he with rfl
      constructor
      · exact ⟨slot, hslot_db, rfl, Schedule.mem_insert_self ..,
          Schedule.mem_insert_self .., Schedule.mem_insert_self ..⟩
      · exact ⟨⟨slot, hslot_db, rfl⟩, u, hu, rfl, rfl, room, hroom_db, rfl,
          hlab, hnormal⟩
  · rw [List.pairwise_append]
    refine ⟨hinv.2, List.pairwise_singleton _ _, ?_⟩
    intro a ha b hb
    rcases List.mem_singleton.mp hb with rfl
    intro s1 hs1 s2 hs2 hid1 hid2 hkeyeq
    obtain ⟨⟨s, hsdb, hsid, hl, hr2, hg⟩, -⟩ := hinv.1 a ha
    have hinj := List.inj_on_of_nodup_map hwf.2.2.1
    have hs1s : s1 = s := hinj hs1 hsdb (by rw [← hid1, hsid])
    have hs2slot : s2 = slot := hinj hs2 hslot_db hid2.symm
    subst hs1s
    subst hs2slot
    refine ⟨fun heq => hnl ?_, fun heq => hnr ?_, fun heq => hng ?_⟩
    · have heq2 : a.lecturer_id = u.lecturer_id := heq
      rw [← hkeyeq, ← heq2]
      exact hl
    · have heq2 : a.room_id = room.id := heq
      rw [← hkeyeq, ← heq2]
      exact hr2
    · have heq2 : a.student_group_id = student_group.id := heq
      rw [← hkeyeq, ← heq2]
      exact hg

theorem place_unit_inv (db : DBState) (rng : Nat → Nat) (st : GenState)
    (u : Unit) (student_group : StudentGroup) (session_type : String)
    (hwf : WF db) (hu : u ∈ db.units) (hinv : GenInv db st) :
    GenInv db (place_unit db rng st u student_group session_type) := by
  simp only [place_unit]
  split <;> rename_i hreq
  · split
    · exact hinv
    · rename_i hrooms_ne
      split
      · exact hinv
      · rename_i hslots_ne
        split
        · exact hinv
        · rename_i slot room fst kk hplace
          have hSRne : db.rooms.filter (fun r => r.room_type == "lab") ≠ [] :=
            fun hh => hrooms_ne (List.isEmpty_iff.mpr hh)
          have hASne : db.time_slots.filter (fun ts => ts.session_type == session_type) ≠ [] :=
            fun hh => hslots_ne (List.isEmpty_iff.mpr hh)
          obtain ⟨hslotmem, hroommem, hnl, hnr, hng⟩ :=
            placement_trials_some rng st.lecturer_schedule st.room_schedule
              st.student_schedule u.lecturer_id student_group.id hASne hSRne hplace
          exact commit_inv db st u student_group slot room kk hwf hu hinv
            (List.mem_of_mem_filter hslotmem) (List.mem_of_mem_filter hroommem)
            (fun _ => by simpa using List.of_mem_filter hroommem)
            (fun hc => absurd hc (by simp [hreq]))
            hnl hnr hng
  · split
    · exact hinv
    · rename_i hrooms_ne
      split
      · exact hinv
      · rename_i hslots_ne
        split
        · exact hinv
        · rename_i slot room fst kk hplace
          have hSRne : db.rooms.filter (fun r => r.room_type == "normal") ≠ [] :=
            fun hh => hrooms_ne (List.isEmpty_iff.mpr hh)
          have hASne : db.time_slots.filter (fun ts => ts.session_type == session_type) ≠ [] :=
            fun hh => hslots_ne (List.isEmpty_iff.mpr hh)
          obtain ⟨hslotmem, hroommem, hnl, hnr, hng⟩ :=
            placement_trials_some rng st.lecturer_schedule st.room_schedule
              st.student_schedule u.lecturer_id student_group.id hASne hSRne hplace
          exact commit_inv db st u student_group slot room kk hwf hu hinv
            (List.mem_of_mem_filter hslotmem) (List.mem_of_mem_filter hroommem)
            (fun hc => absurd hc (by simp [hreq]))
            (fun _ => by simpa using List.of_mem_filter hroommem)
            hnl hnr hng

theorem schedule_unit_inv (db : DBState) (rng : Nat → Nat)
    {st st' : GenState} {u : Unit} (hwf : WF db) (hu : u ∈ db.units)
    (hinv : GenInv db st) (h : schedule_unit db rng st u = .ok st') :
    GenInv db st' := by
  rw [schedule_unit] at h
  split at h
  · exact (Except.ok.inj h) ▸ hinv
  · split at h
    · exact Except.noConfusion h
    · split at h
      · exact Except.noConfusion h
      · exact (Except.ok.inj h) ▸ place_unit_inv db rng st u _ _ hwf hu hinv

theorem run_units_inv (db : DBState) (rng : Nat → Nat) (hwf : WF db) :
    ∀ us : List Unit, (∀ u ∈ us, u ∈ db.units) → ∀ st, GenInv db st → ∀ st',
      run_units db rng st us = .ok st' → GenInv db st' := by
  intro us
  induction us with
  | nil =>
    intro _ st hst st' h
    exact (Except.ok.inj h) ▸ hst
  | cons u t ih =>
    intro hmem st hst st' h
    rw [run_units] at h
    cases hstep : schedule_unit db rng st u with
    | error e => rw [hstep] at h; exact Except.noConfusion h
    | ok st1 =>
      rw [hstep] at h
      exact ih (fun x hx => hmem x (List.mem_cons_of_mem _ hx)) st1
        (schedule_unit_inv db rng hwf (hmem u (List.mem_cons_self _ _)) hst hstep) st' h

theorem generate_schedule_ok_inv {db : DBState} {rng : Nat → Nat}
    {es : List TimetableEntry} (hwf : WF db)
    (h : generate_schedule_entries db rng = .ok es) :
    (∀ e ∈ es, EntryRefs db e) ∧ es.Pairwise (KeySep db) := by
  rw [generate_schedule_entries, generate_schedule] at h
  split at h
  · obtain rfl := Except.ok.inj h
    exact ⟨fun e he => absurd he (List.not_mem_nil e), List.Pairwise.nil⟩
  · split at h
    · obtain rfl := Except.ok.inj h
      exact ⟨fun e he => absurd he (List.not_mem_nil e), List.Pairwise.nil⟩
    · split at h
      · obtain rfl := Except.ok.inj h
        exact ⟨fun e he => absurd he (List.not_mem_nil e), List.Pairwise.nil⟩
      · cases hrun : run_units db rng GenState.init (sorted_units db.units) with
        | error e => rw [hrun] at h; exact Except.noConfusion h
        | ok stF =>
          rw [hrun] at h
          obtain rfl := Except.ok.inj h
          have hinvF : GenInv db stF :=
            run_units_inv db rng hwf (sorted_units db.units)
              (fun u hu => mem_sorted_units.mp hu) GenState.init
              ⟨fun e he => absurd he (List.not_mem_nil e), List.Pairwise.nil⟩ stF hrun
          exact ⟨fun e he => (hinvF.1 e he).2, hinvF.2⟩

theorem pairwise_noslotclash {db : DBState} {es : List TimetableEntry}
    (hrefs : ∀ e ∈ es, EntryRefs db e) (hsep : es.Pairwise (KeySep db)) :
    es.Pairwise NoSlotClash := by
  refine List.Pairwise.imp_of_mem ?_ hsep
  intro a b ha hb hk htsid
  obtain ⟨⟨s, hsdb, hsid⟩, -⟩ := hrefs a ha
  exact hk s hsdb s hsdb hsid (htsid ▸ hsid) rfl

theorem bucket_nodup {es : List TimetableEntry} (hp : es.Pairwise NoSlotClash)
    (slot_id : Nat) :
    ((slot_bookings es slot_id).map (·.lecturer_id)).Nodup ∧
      ((slot_bookings es slot_id).map (·.room_id)).Nodup ∧
      ((slot_bookings es slot_id).map (·.student_group_id)).Nodup := by
  have hsub : (slot_bookings es slot_id).Pairwise NoSlotClash :=
    List.Pairwise.sublist (List.filter_sublist es) hp
  have htsid : ∀ e ∈ slot_bookings es slot_id, e.time_slot_id = slot_id := by
    intro e he
    simpa using List.of_mem_filter he
  have hstrong : (slot_bookings es slot_id).Pairwise (fun a b =>
      a.lecturer_id ≠ b.lecturer_id ∧ a.room_id ≠ b.room_id ∧
        a.student_group_id ≠ b.student_group_id) := by
    refine List.Pairwise.imp_of_mem ?_ hsub
    intro a b ha hb hcl
    exact hcl ((htsid a ha).trans (htsid b hb).symm)
  exact ⟨List.Pairwise.map _ (fun a b hab => hab.1) hstrong,
    List.Pairwise.map _ (fun a b hab => hab.2.1) hstrong,
    List.Pairwise.map _ (fun a b hab => hab.2.2) hstrong⟩

theorem double_book_conflicts_eq_nil {es : List TimetableEntry}
    (hp : es.Pairwise NoSlotClash) :
    (slot_booking_keys es).flatMap
      (fun slot_id => slot_conflicts (slot_bookings es slot_id) slot_id) = [] := by
  rw [List.flatMap_eq_nil_iff]
  intro sid _
  obtain ⟨h1, h2, h3⟩ := bucket_nodup hp sid
  simp [slot_conflicts, h1, h2, h3]

theorem lab_check_eq_nil_of_refs {db : DBState} {e : TimetableEntry}
    (hwf : WF db) (href : EntryRefs db e) : lab_check db e = [] := by
  obtain ⟨-, u, hu, huid, -, r, hr, hrid, hlab, hnormal⟩ := href
  have hfu : db.units.find? (fun x => x.id == e.unit_id) = some u := by
    simp only [huid]
    exact find_key_eq_some (fun z => z.id) hwf.1 hu
  have hfr : db.rooms.find? (fun x => x.id == e.room_id) = some r := by
    simp only [hrid]
    exact find_key_eq_some (fun z => z.id) hwf.2.1 hr
  rw [lab_check]
  cases hreq : u.requires_lab with
  | true => simp [hfu, hfr, hreq, hlab hreq]
  | false => simp [hfu, hfr, hreq]

theorem validate_clean {db : DBState} {es : List TimetableEntry}
    (hp : es.Pairwise NoSlotClash) (hlab : ∀ e ∈ es, lab_check db e = []) :
    validate_constraints db es = ⟨true, [], []⟩ := by
  have h1 := double_book_conflicts_eq_nil hp
  have h2 : es.flatMap (lab_check db) = [] := List.flatMap_eq_nil_iff.mpr hlab
  simp [validate_constraints, lab_conflicts, h1, h2]

theorem mem_foldl_keys (x : Nat) :
    ∀ (es : List TimetableEntry) (acc : List Nat),
      (x ∈ acc ∨ ∃ e ∈ es, e.time_slot_id = x) →
      x ∈ es.foldl
        (fun acc e => if e.time_slot_id ∈ acc then acc else acc ++ [e.time_slot_id])
        acc := by
  intro es
  induction es with
  | nil =>
    intro acc h
    rcases h with h | ⟨e, he, -⟩
    · exact h
    · cases he
  | cons e t ih =>
    intro acc h
    rw [List.foldl_cons]
    apply ih
    rcases h with h | ⟨f, hf, hfx⟩
    · left
      by_cases hm : e.time_slot_id ∈ acc <;> simp [hm, h]
    · rcases List.mem_cons.mp hf with rfl | hf
      · left
        by_cases hm : f.time_slot_id ∈ acc <;> simp [hm] <;> rw [← hfx] <;> simp [hm]
      · right
        exact ⟨f, hf, hfx⟩

theorem mem_slot_booking_keys {es : List TimetableEntry} {e : TimetableEntry}
    (he : e ∈ es) : e.time_slot_id ∈ slot_booking_keys es :=
  mem_foldl_keys _ es [] (Or.inr ⟨e, he, rfl⟩)

theorem dup_lecturer_not_nodup {l1 l2 l3 : List TimetableEntry}
    {e1 e2 : TimetableEntry}
    (hts : e1.time_slot_id = e2.time_slot_id) (hl : e1.lecturer_id = e2.lecturer_id) :
    ¬ ((slot_bookings (l1 ++ e1 :: l2 ++ e2 :: l3) e1.time_slot_id).map
        (·.lecturer_id)).Nodup := by
  intro hnd
  have hsub : List.Sublist [e1, e2] (l1 ++ e1 :: l2 ++ e2 :: l3) := by
    have h1 : List.Sublist [e1] (l1 ++ (e1 :: l2)) :=
      List.Sublist.trans (List.Sublist.cons₂ e1 (List.nil_sublist l2))
        (List.sublist_append_right l1 (e1 :: l2))
    exact List.Sublist.append h1 (List.Sublist.cons₂ e2 (List.nil_sublist l3))
  have hfil : List.filter (fun e => e.time_slot_id == e1.time_slot_id) [e1, e2]
      = [e1, e2] := by
    simp [List.filter, ← hts]
  have hmapsub : List.Sublist [e1.lecturer_id, e2.lecturer_id]
      ((slot_bookings (l1 ++ e1 :: l2 ++ e2 :: l3) e1.time_slot_id).map
        (·.lecturer_id)) := by
    have := List.Sublist.map (·.lecturer_id)
      ((List.Sublist.filter (fun e => e.time_slot_id == e1.time_slot_id) hsub).trans
        (List.Sublist.refl _))
    rw [hfil] at this
    exact this
  have hnd2 := hnd.sublist hmapsub
  rw [hl] at hnd2
  simp at hnd2

theorem validate_is_valid_eq (db : DBState) (es : List TimetableEntry) :
    (validate_constraints db es).is_valid =
      ((validate_constraints db es).conflicts.length == 0) := rfl

theorem validate_is_valid_iff (db : DBState) (es : List TimetableEntry) :
    (validate_constraints db es).is_valid = true ↔
      (validate_constraints db es).conflicts = [] := by
  rw [validate_is_valid_eq]
  simp [List.length_eq_zero]

theorem validate_dup_lecturer_conflict (db : DBState)
    (l1 l2 l3 : List TimetableEntry) (e1 e2 : TimetableEntry)
    (hts : e1.time_slot_id = e2.time_slot_id)
    (hl : e1.lecturer_id = e2.lecturer_id) :
    lecturer_conflict_msg e1.time_slot_id ∈
      (validate_constraints db (l1 ++ e1 :: l2 ++ e2 :: l3)).conflicts := by
  have hnd := @dup_lecturer_not_nodup l1 l2 l3 e1 e2 hts hl
  simp only [validate_constraints]
  apply List.mem_append_left
  rw [List.mem_flatMap]
  refine ⟨e1.time_slot_id, mem_slot_booking_keys ?_, ?_⟩
  · simp
  · simp only [slot_conflicts]
    rw [if_neg hnd]
    exact List.mem_append_left _ (List.mem_append_left _ (List.mem_singleton_self _))

theorem schedule_unit_ok {db : DBState} {rng : Nat → Nat} {u : Unit}
    (h : resolves_school db u = true) (st : GenState) :
    ∃ st', schedule_unit db rng st u = .ok st' := by
  rw [schedule_unit]
  split
  · exact ⟨st, rfl⟩
  · split
    · rename_i hdept
      rw [resolves_school, hdept] at h
      exact absurd h (by simp)
    · rename_i dept hdept
      split
      · rename_i hsch
        rw [resolves_school, hdept] at h
        simp [hsch] at h
      · exact ⟨_, rfl⟩

theorem run_units_ok {db : DBState} {rng : Nat → Nat}
    (hres : ∀ u ∈ db.units, resolves_school db u = true) :
    ∀ us : List Unit, (∀ u ∈ us, u ∈ db.units) → ∀ st,
      ∃ st', run_units db rng st us = .ok st' := by
  intro us
  induction us with
  | nil => intro _ st; exact ⟨st, rfl⟩
  | cons u t ih =>
    intro hmem st
    obtain ⟨st1, hst1⟩ :=
      schedule_unit_ok (hres u (hmem u (List.mem_cons_self u t))) st
    obtain ⟨st', hst'⟩ := ih (fun x hx => hmem x (List.mem_cons_of_mem u hx)) st1
    refine ⟨st', ?_⟩
    rw [run_units, hst1]
    exact hst'

/-! ## Claim theorems -/

/-- C1: for every well-formed database state, an entry list returned by
`generate_schedule`, passed to `validate_constraints` against the same state,
yields `is_valid = true` and an empty conflicts list. -/
theorem generated_validates_clean (db : DBState) (rng : Nat → Nat)
    (es : List TimetableEntry) (hwf : WF db)
    (h : generate_schedule_entries db rng = .ok es) :
    (validate_constraints db es).is_valid = true ∧
      (validate_constraints db es).conflicts = [] := by
  obtain ⟨hrefs, hsep⟩ := generate_schedule_ok_inv hwf h
  have hcl := pairwise_noslotclash hrefs hsep
  have hv := validate_clean hcl (fun e he => lab_check_eq_nil_of_refs hwf (hrefs e he))
  rw [hv]
  exact ⟨rfl, rfl⟩

/-- C1 witness: the demonstration store generates one entry, and validating it
yields a clean result. -/
theorem generated_validates_clean_witness :
    (validate_constraints demo_db [⟨1, 1, 2, 1, 1, "all"⟩]).is_valid = true ∧
      (validate_constraints demo_db [⟨1, 1, 2, 1, 1, "all"⟩]).conflicts = [] :=
  generated_validates_clean demo_db zero_rng [⟨1, 1, 2, 1, 1, "all"⟩]
    (by decide) (by rfl)

/-- C2: in an entry set returned by `generate_schedule` on a well-formed
store, the entries referencing any fixed time-slot id carry pairwise distinct
lecturer ids, room ids and student-group ids. -/
theorem generated_no_double_booking (db : DBState) (rng : Nat → Nat)
    (es : List TimetableEntry) (hwf : WF db)
    (h : generate_schedule_entries db rng = .ok es) :
    ∀ slot_id : Nat,
      ((slot_bookings es slot_id).map (·.lecturer_id)).Nodup ∧
        ((slot_bookings es slot_id).map (·.room_id)).Nodup ∧
        ((slot_bookings es slot_id).map (·.student_group_id)).Nodup := by
  intro slot_id
  obtain ⟨hrefs, hsep⟩ := generate_schedule_ok_inv hwf h
  exact bucket_nodup (pairwise_noslotclash hrefs hsep) slot_id

/-- C2 witness: the generated entry set of the demonstration store has
duplicate-free resource lists at slot 1. -/
theorem generated_no_double_booking_witness :
    ((slot_bookings [(⟨1, 1, 2, 1, 1, "all"⟩ : TimetableEntry)] 1).map
        (·.lecturer_id)).Nodup ∧
      ((slot_bookings [(⟨1, 1, 2, 1, 1, "all"⟩ : TimetableEntry)] 1).map
        (·.room_id)).Nodup ∧
      ((slot_bookings [(⟨1, 1, 2, 1, 1, "all"⟩ : TimetableEntry)] 1).map
        (·.student_group_id)).Nodup :=
  generated_no_double_booking demo_db zero_rng [⟨1, 1, 2, 1, 1, "all"⟩]
    (by decide) (by rfl) 1

/-- C3: every entry returned by `generate_schedule` on a well-formed store is
room-type compliant: its unit and room resolve in the store, and the room's
type is `"lab"` when the unit requires a lab and `"normal"` otherwise. -/
theorem generated_room_type_compliant (db : DBState) (rng : Nat → Nat)
    (es : List TimetableEntry) (hwf : WF db)
    (h : generate_schedule_entries db rng = .ok es) :
    ∀ e ∈ es, ∃ u ∈ db.units, ∃ r ∈ db.rooms,
      e.unit_id = u.id ∧ e.room_id = r.id ∧
        (u.requires_lab = true → r.room_type = "lab") ∧
        (u.requires_lab = false → r.room_type = "normal") := by
  intro e he
  obtain ⟨hrefs, -⟩ := generate_schedule_ok_inv hwf h
  obtain ⟨-, u, hu, huid, -, r, hr, hrid, hlab, hnorm⟩ := hrefs e he
  exact ⟨u, hu, r, hr, huid, hrid, hlab, hnorm⟩

/-- C3 witness: the lab unit of the demonstration store is placed in its lab
room. -/
theorem generated_room_type_compliant_witness :
    ∃ u ∈ demo_db.units, ∃ r ∈ demo_db.rooms,
      (⟨1, 1, 2, 1, 1, "all"⟩ : TimetableEntry).unit_id = u.id ∧
        (⟨1, 1, 2, 1, 1, "all"⟩ : TimetableEntry).room_id = r.id ∧
        (u.requires_lab = true → r.room_type = "lab") ∧
        (u.requires_lab = false → r.room_type = "normal") :=
  generated_room_type_compliant demo_db zero_rng [⟨1, 1, 2, 1, 1, "all"⟩]
    (by decide) (by rfl) ⟨1, 1, 2, 1, 1, "all"⟩ (by decide)

/-- C4 counterexample: on an entry set with lecturer 5 duplicated in slot 3,
validation does fail, but no conflict message mentions lecturer 5 — the
message names only the slot, so the claim's "mentioning that lecturer" is
false as stated. -/
theorem validator_message_omits_lecturer_id :
    (validate_constraints empty_db [dup_e1, dup_e2]).is_valid = false ∧
      (validate_constraints empty_db [dup_e1, dup_e2]).conflicts ≠ [] ∧
      ∀ c ∈ (validate_constraints empty_db [dup_e1, dup_e2]).conflicts,
        mentions c "5" = false := by
  decide

/-- C4 (amended): an entry set with two entries sharing a time-slot id and a
lecturer id makes `validate_constraints` return `is_valid = false` with a
lecturer-double-booking conflict naming that slot (but not the lecturer); in
general `is_valid` is true iff the conflicts list is empty. -/
theorem validate_flags_duplicate_lecturer (db : DBState)
    (l1 l2 l3 : List TimetableEntry) (e1 e2 : TimetableEntry)
    (hts : e1.time_slot_id = e2.time_slot_id)
    (hl : e1.lecturer_id = e2.lecturer_id) :
    (validate_constraints db (l1 ++ e1 :: l2 ++ e2 :: l3)).is_valid = false ∧
      lecturer_conflict_msg e1.time_slot_id ∈
        (validate_constraints db (l1 ++ e1 :: l2 ++ e2 :: l3)).conflicts ∧
      ∀ (db' : DBState) (es' : List TimetableEntry),
        ((validate_constraints db' es').is_valid = true ↔
          (validate_constraints db' es').conflicts = []) := by
  have hmem := validate_dup_lecturer_conflict db l1 l2 l3 e1 e2 hts hl
  refine ⟨?_, hmem, fun db' es' => validate_is_valid_iff db' es'⟩
  have hiff := validate_is_valid_iff db (l1 ++ e1 :: l2 ++ e2 :: l3)
  by_contra hne
  have htrue : (validate_constraints db (l1 ++ e1 :: l2 ++ e2 :: l3)).is_valid = true := by
    revert hne
    cases (validate_constraints db (l1 ++ e1 :: l2 ++ e2 :: l3)).is_valid <;> simp
  rw [hiff.mp htrue] at hmem
  exact List.not_mem_nil _ hmem

/-- C4 witness: the duplicated-lecturer scenario instantiated on concrete
entries. -/
theorem validate_flags_duplicate_lecturer_witness :
    (validate_constraints empty_db ([] ++ dup_e1 :: [] ++ dup_e2 :: [])).is_valid
        = false ∧
      lecturer_conflict_msg dup_e1.time_slot_id ∈
        (validate_constraints empty_db
          ([] ++ dup_e1 :: [] ++ dup_e2 :: [])).conflicts ∧
      ∀ (db' : DBState) (es' : List TimetableEntry),
        ((validate_constraints db' es').is_valid = true ↔
          (validate_constraints db' es').conflicts = []) :=
  validate_flags_duplicate_lecturer empty_db [] [] [] dup_e1 dup_e2 rfl rfl

/-- C5 counterexample: on day 1 the catalog holds 4 long-session slots, not 5
per day per profile as the claim's final clause states. -/
theorem catalog_not_five_per_day_per_profile :
    (generate_time_slots empty_db).1.countP
        (fun s => s.day_of_week == 1 && s.session_type == "spas_3h") = 4 ∧
      ¬ ((generate_time_slots empty_db).1.countP
        (fun s => s.day_of_week == 1 && s.session_type == "spas_3h") = 5) := by
  decide

/-- C5 (amended): `generate_time_slots` is deterministic — the catalog does not
depend on the store — and always returns exactly 50 slots: for each day 1..5
it emits the 4 fixed long-session (`spas_3h`) slots and the 6 fixed
short-session (`shs_2h`) slots. -/
theorem time_slot_generator_deterministic (db1 db2 : DBState) :
    (generate_time_slots db1).1 = (generate_time_slots db2).1 ∧
      (generate_time_slots db1).1.length = 50 ∧
      ∀ d : Nat, 1 ≤ d → d ≤ 5 →
        ((generate_time_slots db1).1.countP
            (fun s => s.day_of_week == d && s.session_type == "spas_3h") = 4 ∧
          (generate_time_slots db1).1.countP
            (fun s => s.day_of_week == d && s.session_type == "shs_2h") = 6) := by
  have hcat : (generate_time_slots db1).1 = time_slot_catalog := rfl
  refine ⟨rfl, ?_, ?_⟩
  · rw [hcat]
    decide
  · intro d h1 h5
    rw [hcat]
    interval_cases d <;> exact ⟨by decide, by decide⟩

/-- C5 witness: day 1 carries 4 long and 6 short slots. -/
theorem time_slot_generator_deterministic_witness :
    (generate_time_slots empty_db).1.countP
        (fun s => s.day_of_week == 1 && s.session_type == "spas_3h") = 4 ∧
      (generate_time_slots empty_db).1.countP
        (fun s => s.day_of_week == 1 && s.session_type == "shs_2h") = 6 :=
  (time_slot_generator_deterministic empty_db empty_db).2.2 1 (by decide) (by decide)

/-- C6 counterexample: calling `generate_time_slots` on the empty store does
change the store — afterwards its time-slot table holds the 50 generated
slots — so "the external store's state is unchanged by the call" is false. -/
theorem generate_time_slots_mutates_store :
    (generate_time_slots empty_db).2 ≠ empty_db ∧
      (generate_time_slots empty_db).2.time_slots.length = 50 := by
  decide

/-- C6 (amended): `generate_time_slots` itself persists the catalog: the
returned store equals the input store with the generated catalog appended to
its time-slot table (`db.add_all` + `db.commit`, `scheduler.py:66-67`), and
nothing else changes. -/
theorem generate_time_slots_persists_catalog (db : DBState) :
    (generate_time_slots db).2 =
      { db with time_slots := db.time_slots ++ (generate_time_slots db).1 } ∧
      (generate_time_slots db).1 = time_slot_catalog :=
  ⟨rfl, rfl⟩

/-- C7 counterexample: on a store whose single unit has a matching student
group but an unresolvable department id, `generate_schedule` does not skip the
unit — it raises (modelled as `Except.error`), refuting "generate_schedule
never raises". -/
theorem generate_schedule_raises_on_dangling_department :
    generate_schedule_entries dangling_dept_db zero_rng =
      .error "AttributeError: NoneType has no attribute school_id" := by
  rfl

/-- C7 (amended): provided every unit's department id resolves to a department
whose school id resolves to a school, `generate_schedule` never raises: the
no-student-group, no-suitable-room, no-matching-slot and exhausted-attempts
cases all degrade to skipping the unit. -/
theorem generate_schedule_no_error_when_resolvable (db : DBState)
    (rng : Nat → Nat) (hres : ∀ u ∈ db.units, resolves_school db u = true) :
    ∃ res, generate_schedule db rng = .ok res := by
  rw [generate_schedule]
  split
  · exact ⟨_, rfl⟩
  · split
    · exact ⟨_, rfl⟩
    · split
      · exact ⟨_, rfl⟩
      · obtain ⟨stF, hrun⟩ := run_units_ok hres (sorted_units db.units)
          (fun u hu => mem_sorted_units.mp hu) GenState.init
        rw [hrun]
        exact ⟨_, rfl⟩

/-- C7 witness: the demonstration store resolves all departments and schools,
and generation succeeds on it. -/
theorem generate_schedule_no_error_when_resolvable_witness :
    ∃ res, generate_schedule demo_db zero_rng = .ok res :=
  generate_schedule_no_error_when_resolvable demo_db zero_rng (by decide)

/-- C8: if the units, time-slot, or room collection is empty,
`generate_schedule` returns an empty entry list and leaves the store
untouched — an early exit, not an error. -/
theorem generate_schedule_empty_early_exit (db : DBState) (rng : Nat → Nat)
    (h : db.units = [] ∨ db.time_slots = [] ∨ db.rooms = []) :
    generate_schedule db rng = .ok ([], db) := by
  rw [generate_schedule]
  rcases h with h | h | h
  · simp [h]
  · by_cases hu : db.units.isEmpty <;> simp [hu, h]
  · by_cases hu : db.units.isEmpty <;> by_cases ht : db.time_slots.isEmpty <;>
      simp [hu, ht, h]

/-- C8 witness: the empty store early-exits with no entries. -/
theorem generate_schedule_empty_early_exit_witness :
    generate_schedule empty_db zero_rng = .ok ([], empty_db) :=
  generate_schedule_empty_early_exit empty_db zero_rng (Or.inl rfl)

/-- C9: the placement loop run with the source's budget
`min(100, |slots| × |rooms|)` performs at most that many trials; and for one
candidate slot and one candidate room whose slot key is already occupied on
any of the three indexes, it stops unscheduled (`none`) after exactly 1
trial. -/
theorem placement_attempts_bounded (rng : Nat → Nat) (slots : List TimeSlot)
    (rooms : List Room) (L R G : Schedule) (lect grp k : Nat) :
    (placement_trials rng slots rooms L R G lect grp k
        (min 100 (slots.length * rooms.length))).2.1 ≤
      min 100 (slots.length * rooms.length) ∧
      ∀ (s : TimeSlot) (r : Room),
        (slot_key s ∈ L lect ∨ slot_key s ∈ R r.id ∨ slot_key s ∈ G grp) →
        placement_trials rng [s] [r] L R G lect grp k
            (min 100 ([s].length * [r].length)) = (none, 1, k + 2) := by
  refine ⟨placement_trials_attempts_le rng slots rooms L R G lect grp _ k, ?_⟩
  intro s r hocc
  have hmin : min 100 ([s].length * [r].length) = 1 := by
    simp [Nat.min_def]
  rw [hmin, placement_trials]
  have hs : choice [s] default_slot (rng k) = s := by
    simp [choice, Nat.mod_one]
  have hr : choice [r] default_room (rng (k + 1)) = r := by
    simp [choice, Nat.mod_one]
  simp only [hs, hr, placement_trials]
  rw [if_neg (not_not_intro hocc)]

/-- C9 witness: with the single slot/room pair already occupied for lecturer 1,
the loop stops unscheduled after one trial. -/
theorem placement_attempts_bounded_witness :
    placement_trials zero_rng [slot_a] [room_a] occupied_l Schedule.empty
        Schedule.empty 1 1 0 (min 100 ([slot_a].length * [room_a].length)) =
      (none, 1, 0 + 2) :=
  (placement_attempts_bounded zero_rng [slot_a] [room_a] occupied_l
      Schedule.empty Schedule.empty 1 1 0).2 slot_a room_a (Or.inl (by decide))

/-- C10: in `validate_constraints` the lab check is silently skipped for
entries whose unit id or room id does not resolve in the store: such entries
produce no lab conflicts, and an entry set of only dangling references with no
duplicate slot bookings validates as fully clean (no conflicts, no
warnings). -/
theorem dangling_refs_skip_lab_check (db : DBState) (es : List TimetableEntry)
    (hdangle : ∀ e ∈ es, db.units.find? (fun x => x.id == e.unit_id) = none ∨
        db.rooms.find? (fun x => x.id == e.room_id) = none)
    (hclash : es.Pairwise NoSlotClash) :
    lab_conflicts db es = [] ∧ validate_constraints db es = ⟨true, [], []⟩ := by
  have hlab : ∀ e ∈ es, lab_check db e = [] := by
    intro e he
    rcases hdangle e he with h | h
    · rw [lab_check, h]
    · rw [lab_check, h]
      cases db.units.find? (fun x => x.id == e.unit_id) <;> rfl
  refine ⟨?_, validate_clean hclash hlab⟩
  rw [lab_conflicts]
  exact List.flatMap_eq_nil_iff.mpr hlab

/-- C10 witness: a single entry whose references all dangle in the empty store
validates as clean. -/
theorem dangling_refs_skip_lab_check_witness :
    lab_conflicts empty_db [⟨1, 1, 1, 1, 1, "all"⟩] = [] ∧
      validate_constraints empty_db [⟨1, 1, 1, 1, 1, "all"⟩] = ⟨true, [], []⟩ :=
  dangling_refs_skip_lab_check empty_db [⟨1, 1, 1, 1, 1, "all"⟩]
    (by decide) (by decide)

end Timetable
